import Mathlib

/-!
Shallow embedding of `src/Outpost/generate_sprites.py`, a build-time
pixel-art sprite generator: a fixed color palette, 16x16 RGBA canvas
primitives (`new_image`, `draw_pixel`, `fill_rect`), 39 sprite drawer
functions, a nearest-neighbor upscaling emitter (`create_imageset`),
and a linear driver (`main`).

Python integers are modelled as `Int` (coordinates) and `Nat` (channel
values, which only ever hold literals in `[0, 255]`).  A PIL RGBA image
is modelled as a list of 16 rows of 16 RGBA pixels.  A Python call that
can raise (the palette lookup inside `draw_pixel`) is modelled in the
`Option` monad: `none` is an uncaught `KeyError`.
-/

set_option maxRecDepth 100000
set_option maxHeartbeats 2000000

namespace Outpost

/-- RGB triple as stored in the palette. -/
abbrev RGB := Nat × Nat × Nat

/-- RGBA pixel as stored by PIL in an `RGBA` image. -/
abbrev Pixel := Nat × Nat × Nat × Nat

/-- One PIL 16x16 RGBA image: a list of rows, each a list of pixels. -/
abbrev Canvas := List (List Pixel)

/-- Source line 11: `TILE_SIZE = 16`. -/
def TILE_SIZE : Nat := 16

/-- Source line 12: `ASSETS_PATH = "Outpost/Assets.xcassets"`. -/
def ASSETS_PATH : String := "Outpost/Assets.xcassets"

/-- Source lines 48-112: the color palette dict, in declaration order. -/
def COLORS : List (String × RGB) := [
  ("grass_light", (98, 168, 68)),
  ("grass_dark", (68, 138, 48)),
  ("tree_dark", (34, 82, 34)),
  ("tree_light", (54, 112, 54)),
  ("shrub", (78, 128, 58)),
  ("plant_green", (88, 178, 88)),
  ("dirt_light", (158, 118, 78)),
  ("dirt_dark", (128, 88, 58)),
  ("wood_light", (168, 128, 88)),
  ("wood_med", (138, 98, 58)),
  ("wood_dark", (108, 78, 48)),
  ("bark", (88, 58, 38)),
  ("stone_light", (148, 148, 148)),
  ("stone_med", (118, 118, 118)),
  ("stone_dark", (88, 88, 88)),
  ("wall_dark", (68, 68, 68)),
  ("water_light", (88, 148, 218)),
  ("water_dark", (58, 118, 188)),
  ("water_deep", (38, 88, 158)),
  ("metal_light", (178, 178, 188)),
  ("metal_dark", (128, 128, 138)),
  ("gold", (218, 178, 58)),
  ("gold_dark", (178, 138, 38)),
  ("skin", (218, 178, 138)),
  ("skin_dark", (188, 148, 108)),
  ("beard_brown", (98, 68, 48)),
  ("goblin_green", (88, 138, 68)),
  ("goblin_dark", (58, 108, 48)),
  ("wolf_gray", (128, 128, 128)),
  ("wolf_dark", (88, 88, 88)),
  ("bear_brown", (118, 78, 48)),
  ("bear_dark", (88, 58, 38)),
  ("giant_purple", (138, 108, 148)),
  ("undead_pale", (158, 178, 158)),
  ("undead_dark", (108, 128, 108)),
  ("bread", (218, 178, 98)),
  ("meat_red", (198, 78, 78)),
  ("meat_dark", (158, 58, 58)),
  ("ale", (168, 118, 48)),
  ("fabric_red", (178, 68, 68)),
  ("fabric_blue", (68, 98, 158)),
  ("select_yellow", (255, 238, 68)),
  ("select_orange", (255, 178, 38)),
  ("empty", (28, 28, 38)),
  ("black", (0, 0, 0)),
  ("white", (255, 255, 255))]

/-- A color argument as passed by the drawers to `draw_pixel` /
`fill_rect`: either a symbolic palette name (a Python `str`) or a
literal RGB triple. -/
inductive PyColor where
  | name (s : String)
  | rgb (c : RGB)
deriving DecidableEq

/-- Source line 120: `color = COLORS[color]` for a string, identity for
a literal triple.  `none` models the `KeyError` raised by an undefined
palette name. -/
def resolveColor : PyColor → Option RGB
  | PyColor.name s => COLORS.lookup s
  | PyColor.rgb c => some c

/-- Source lines 114-115: a fresh fully transparent 16x16 RGBA image. -/
def new_image : Canvas :=
  List.replicate TILE_SIZE (List.replicate TILE_SIZE (0, 0, 0, 0))

/-- Read the pixel at column `x` of row `y` (the PIL `getpixel`). -/
def getPixel (img : Canvas) (x y : Nat) : Pixel :=
  (img.getD y []).getD x (0, 0, 0, 0)

/-- PIL `img.putpixel((x, y), p)`: replace the pixel at column `x` of
row `y`. -/
def putpixel (img : Canvas) (x y : Nat) (p : Pixel) : Canvas :=
  img.set y ((img.getD y []).set x p)

/-- Source lines 117-121:

```
def draw_pixel(img, x, y, color):
    if 0 <= x < TILE_SIZE and 0 <= y < TILE_SIZE:
        if isinstance(color, str):
            color = COLORS[color]
        img.putpixel((x, y), color + (255,))
```

The bounds test comes first, so an out-of-range call is a no-op even
for an undefined color name; an in-range call with an undefined name
raises `KeyError` (modelled as `none`). -/
def draw_pixel (img : Canvas) (x y : Int) (color : PyColor) : Option Canvas :=
  if 0 ≤ x ∧ x < (TILE_SIZE : Int) ∧ 0 ≤ y ∧ y < (TILE_SIZE : Int) then
    match resolveColor color with
    | some c => some (putpixel img x.toNat y.toNat (c.1, c.2.1, c.2.2, 255))
    | none => none
  else
    some img

/-- Elements of the Python `range(a, a + n)` for a nonnegative count. -/
def intRange (a : Int) : Nat → List Int
  | 0 => []
  | n + 1 => a :: intRange (a + 1) n

/-- Python `range(a, b)`: the integers `a, a+1, ..., b-1` (empty when
`b ≤ a`). -/
def pyrange (a b : Int) : List Int := intRange a (b - a).toNat

/-- Python `range(a, b, step)` for a positive `step`. -/
def rangeStep (a b step : Int) : List Int :=
  (List.range ((b - a + step - 1) / step).toNat).map (fun k => a + step * k)

/-- Source lines 123-126:

```
def fill_rect(img, x, y, w, h, color):
    for py in range(y, y + h):
        for px in range(x, x + w):
            draw_pixel(img, px, py, color)
```
-/
def fill_rect (img : Canvas) (x y w h : Int) (color : PyColor) : Option Canvas :=
  (pyrange y (y + h)).foldlM
    (fun im py => (pyrange x (x + w)).foldlM
      (fun im2 px => draw_pixel im2 px py color) im) img

/-- Source lines 130-136: `terrain_empty_air`.  The noise loop passes
`(48, 48, 58, 255)[:3]`, i.e. the literal triple `(48, 48, 58)`. -/
def terrain_empty_air : Unit → Option Canvas := fun _ => do
  let img := new_image
  let img ← fill_rect img 0 0 16 16 (.name "empty")
  let img ← [((3 : Int), (4 : Int)), (8, 2), (12, 7), (5, 12), (14, 11)].foldlM
    (fun im pos => draw_pixel im pos.1 pos.2 (.rgb (48, 48, 58))) img
  pure img

/-- Source lines 138-150: `terrain_grass`. -/
def terrain_grass : Unit → Option Canvas := fun _ => do
  let img := new_image
  let img ← fill_rect img 0 0 16 16 (.name "grass_dark")
  let img ← (pyrange 0 16).foldlM (fun im y =>
    (pyrange 0 16).foldlM (fun im2 x =>
      if (x + y) % 3 == 0 then draw_pixel im2 x y (.name "grass_light")
      else pure im2) im) img
  let img ← [(1 : Int), 4, 7, 10, 13].foldlM (fun im x => do
    let im ← draw_pixel im x 0 (.name "grass_light")
    draw_pixel im (x + 1) 1 (.name "grass_light")) img
  pure img

/-- Source lines 152-163: `terrain_dirt`. -/
def terrain_dirt : Unit → Option Canvas := fun _ => do
  let img := new_image
  let img ← fill_rect img 0 0 16 16 (.name "dirt_dark")
  let img ← (pyrange 0 16).foldlM (fun im y =>
    (pyrange 0 16).foldlM (fun im2 x =>
      if (x * 3 + y * 7) % 5 == 0 then draw_pixel im2 x y (.name "dirt_light")
      else pure im2) im) img
  let img ← [((3 : Int), (5 : Int)), (10, 8), (6, 12)].foldlM
    (fun im pos => draw_pixel im pos.1 pos.2 (.name "stone_med")) img
  pure img

/-- Source lines 165-175: `terrain_stone`. -/
def terrain_stone : Unit → Option Canvas := fun _ => do
  let img := new_image
  let img ← fill_rect img 0 0 16 16 (.name "stone_med")
  let img ← (pyrange 0 16).foldlM (fun im y =>
    (pyrange 0 16).foldlM (fun im2 x =>
      if (x * 5 + y * 3) % 7 == 0 then draw_pixel im2 x y (.name "stone_dark")
      else if (x * 2 + y * 5) % 9 == 0 then draw_pixel im2 x y (.name "stone_light")
      else pure im2) im) img
  pure img

/-- Source lines 177-189: `terrain_water`. -/
def terrain_water : Unit → Option Canvas := fun _ => do
  let img := new_image
  let img ← fill_rect img 0 0 16 16 (.name "water_dark")
  let img ← (rangeStep 0 16 4).foldlM (fun im y =>
    (pyrange 0 16).foldlM (fun im2 x =>
      if (x + y / 4) % 4 < 2 then do
        let im3 ← draw_pixel im2 x y (.name "water_light")
        draw_pixel im3 x (y + 1) (.name "water_light")
      else pure im2) im) img
  let img ← [((2 : Int), (3 : Int)), (8, 7), (13, 11)].foldlM
    (fun im pos => draw_pixel im pos.1 pos.2 (.rgb (128, 188, 238))) img
  pure img

/-- Source lines 191-203: `terrain_tree`. -/
def terrain_tree : Unit → Option Canvas := fun _ => do
  let img := new_image
  let img ← fill_rect img 0 0 16 16 (.name "grass_dark")
  let img ← fill_rect img 6 10 4 6 (.name "bark")
  let img ← fill_rect img 7 11 2 4 (.name "wood_dark")
  let img ← fill_rect img 3 2 10 9 (.name "tree_dark")
  let img ← fill_rect img 2 4 12 5 (.name "tree_dark")
  let img ← fill_rect img 4 3 4 4 (.name "tree_light")
  let img ← draw_pixel img 5 4 (.name "shrub")
  pure img

/-- Source lines 205-217: `terrain_shrub`. -/
def terrain_shrub : Unit → Option Canvas := fun _ => do
  let img := new_image
  let img ← fill_rect img 0 0 16 16 (.name "grass_dark")
  let img ← fill_rect img 3 6 10 8 (.name "shrub")
  let img ← fill_rect img 5 4 6 4 (.name "shrub")
  let img ← [((5 : Int), (7 : Int)), (8, 5), (10, 8)].foldlM
    (fun im pos => draw_pixel im pos.1 pos.2 (.name "grass_light")) img
  let img ← [((6 : Int), (9 : Int)), (9, 7), (11, 10)].foldlM
    (fun im pos => draw_pixel im pos.1 pos.2 (.rgb (198, 58, 58))) img
  pure img

/-- Source lines 219-230: `terrain_wall`.  Note the base `wall_dark`
fill is entirely overpainted by the four stone texture rectangles. -/
def terrain_wall : Unit → Option Canvas := fun _ => do
  let img := new_image
  let img ← fill_rect img 0 0 16 16 (.name "wall_dark")
  let img ← fill_rect img 0 0 8 6 (.name "stone_dark")
  let img ← fill_rect img 8 0 8 8 (.name "stone_med")
  let img ← fill_rect img 0 6 10 6 (.name "stone_med")
  let img ← fill_rect img 10 8 6 8 (.name "stone_dark")
  let img ← [((4 : Int), (3 : Int)), (12, 5), (6, 10), (3, 13)].foldlM
    (fun im pos => draw_pixel im pos.1 pos.2 (.name "black")) img
  pure img

/-- Source lines 232-244: `terrain_ore`. -/
def terrain_ore : Unit → Option Canvas := fun _ => do
  let img := new_image
  let img ← fill_rect img 0 0 16 16 (.name "stone_dark")
  let img ← fill_rect img 2 3 4 3 (.name "gold")
  let img ← fill_rect img 9 7 5 4 (.name "gold")
  let img ← fill_rect img 4 11 3 3 (.name "gold")
  let img ← [((3 : Int), (4 : Int)), (11, 8), (5, 12)].foldlM
    (fun im pos => draw_pixel im pos.1 pos.2 (.name "gold_dark")) img
  let img ← [((4 : Int), (3 : Int)), (10, 9), (6, 11)].foldlM
    (fun im pos => draw_pixel im pos.1 pos.2 (.name "white")) img
  pure img

/-- Source lines 246-257: `terrain_wooden_floor`. -/
def terrain_wooden_floor : Unit → Option Canvas := fun _ => do
  let img := new_image
  let img ← fill_rect img 0 0 16 16 (.name "wood_med")
  let img ← [(0 : Int), 4, 8, 12].foldlM
    (fun im y => fill_rect im 0 y 16 1 (.name "wood_dark")) img
  let img ← (pyrange 0 16).foldlM (fun im y =>
    (pyrange 0 16).foldlM (fun im2 x =>
      if (x + y * 3) % 8 == 0 then draw_pixel im2 x y (.name "wood_light")
      else pure im2) im) img
  pure img

/-- Source lines 259-270: `terrain_stone_floor`. -/
def terrain_stone_floor : Unit → Option Canvas := fun _ => do
  let img := new_image
  let img ← fill_rect img 0 0 16 16 (.name "stone_light")
  let img ← [(0 : Int), 8].foldlM
    (fun im y => fill_rect im 0 y 16 1 (.name "stone_dark")) img
  let img ← [(0 : Int), 8].foldlM
    (fun im x => fill_rect im x 0 1 16 (.name "stone_dark")) img
  let img ← fill_rect img 1 1 6 6 (.name "stone_med")
  let img ← fill_rect img 9 9 6 6 (.name "stone_med")
  pure img

/-- Source lines 272-281: `terrain_constructed_wall`. -/
def terrain_constructed_wall : Unit → Option Canvas := fun _ => do
  let img := new_image
  let img ← fill_rect img 0 0 16 16 (.name "stone_med")
  let img ← (rangeStep 0 16 4).foldlM (fun im y => do
    let im ← fill_rect im 0 y 16 1 (.name "stone_dark")
    let offset : Int := if (y / 4) % 2 == 0 then 4 else 0
    (rangeStep offset 16 8).foldlM
      (fun im2 x => fill_rect im2 x y 1 4 (.name "stone_dark")) im) img
  pure img

/-- Source lines 283-295: `terrain_stairs_up`. -/
def terrain_stairs_up : Unit → Option Canvas := fun _ => do
  let img := new_image
  let img ← fill_rect img 0 0 16 16 (.name "stone_dark")
  let img ← ([(12 : Int), 8, 4, 0].enum).foldlM (fun im iy => do
    let im ← fill_rect im 0 iy.2 16 4
      (if iy.1 % 2 == 0 then .name "stone_med" else .name "stone_light")
    fill_rect im 0 iy.2 16 1 (.name "stone_dark")) img
  let img ← fill_rect img 7 5 2 6 (.name "white")
  let img ← (pyrange 0 3).foldlM (fun im i => do
    let im ← draw_pixel im (7 - i) (5 + i) (.name "white")
    draw_pixel im (8 + i) (5 + i) (.name "white")) img
  pure img

/-- Source lines 297-309: `terrain_stairs_down`. -/
def terrain_stairs_down : Unit → Option Canvas := fun _ => do
  let img := new_image
  let img ← fill_rect img 0 0 16 16 (.name "stone_dark")
  let img ← ([(0 : Int), 4, 8, 12].enum).foldlM (fun im iy => do
    let im ← fill_rect im 0 iy.2 16 4
      (if iy.1 % 2 == 0 then .name "stone_med" else .name "stone_light")
    fill_rect im 0 (iy.2 + 3) 16 1 (.name "stone_dark")) img
  let img ← fill_rect img 7 5 2 6 (.name "white")
  let img ← (pyrange 0 3).foldlM (fun im i => do
    let im ← draw_pixel im (7 - i) (11 - i) (.name "white")
    draw_pixel im (8 + i) (11 - i) (.name "white")) img
  pure img

/-- Source lines 311-325: `terrain_stairs_updown`. -/
def terrain_stairs_updown : Unit → Option Canvas := fun _ => do
  let img := new_image
  let img ← fill_rect img 0 0 16 16 (.name "stone_med")
  let img ← [(0 : Int), 4, 8, 12].foldlM
    (fun im y => fill_rect im 0 y 16 1 (.name "stone_dark")) img
  let img ← fill_rect img 3 4 2 8 (.name "white")
  let img ← draw_pixel img 2 5 (.name "white")
  let img ← draw_pixel img 5 5 (.name "white")
  let img ← fill_rect img 11 4 2 8 (.name "white")
  let img ← draw_pixel img 10 11 (.name "white")
  let img ← draw_pixel img 13 11 (.name "white")
  pure img

/-- Source lines 327-336: `terrain_ramp_up`. -/
def terrain_ramp_up : Unit → Option Canvas := fun _ => do
  let img := new_image
  let img ← fill_rect img 0 0 16 16 (.name "stone_dark")
  let img ← (pyrange 0 16).foldlM
    (fun im i => fill_rect im 0 (15 - i) (i + 1) 1 (.name "stone_med")) img
  let img ← (pyrange 0 14).foldlM
    (fun im i => draw_pixel im i (14 - i) (.name "stone_light")) img
  pure img

/-- Source lines 338-347: `terrain_ramp_down`. -/
def terrain_ramp_down : Unit → Option Canvas := fun _ => do
  let img := new_image
  let img ← fill_rect img 0 0 16 16 (.name "stone_dark")
  let img ← (pyrange 0 16).foldlM
    (fun im i => fill_rect im (15 - i) (15 - i) (i + 1) 1 (.name "stone_med")) img
  let img ← (pyrange 0 14).foldlM
    (fun im i => draw_pixel im (15 - i) (14 - i) (.name "stone_light")) img
  pure img

/-- Source lines 351-373: `creature_dwarf`. -/
def creature_dwarf : Unit → Option Canvas := fun _ => do
  let img := new_image
  let img ← fill_rect img 4 7 8 6 (.name "fabric_blue")
  let img ← fill_rect img 5 2 6 5 (.name "skin")
  let img ← fill_rect img 5 5 6 4 (.name "beard_brown")
  let img ← fill_rect img 6 8 4 2 (.name "beard_brown")
  let img ← draw_pixel img 6 3 (.name "black")
  let img ← draw_pixel img 9 3 (.name "black")
  let img ← fill_rect img 5 1 6 2 (.name "metal_dark")
  let img ← draw_pixel img 7 0 (.name "metal_light")
  let img ← draw_pixel img 8 0 (.name "metal_light")
  let img ← fill_rect img 5 13 2 3 (.name "skin_dark")
  let img ← fill_rect img 9 13 2 3 (.name "skin_dark")
  let img ← fill_rect img 2 8 2 4 (.name "skin")
  let img ← fill_rect img 12 8 2 4 (.name "skin")
  pure img

/-- Source lines 375-395: `creature_goblin`. -/
def creature_goblin : Unit → Option Canvas := fun _ => do
  let img := new_image
  let img ← fill_rect img 5 6 6 7 (.name "goblin_dark")
  let img ← fill_rect img 4 1 8 6 (.name "goblin_green")
  let img ← draw_pixel img 3 2 (.name "goblin_green")
  let img ← draw_pixel img 12 2 (.name "goblin_green")
  let img ← draw_pixel img 5 3 (.rgb (255, 68, 68))
  let img ← draw_pixel img 10 3 (.rgb (255, 68, 68))
  let img ← fill_rect img 6 5 4 1 (.name "black")
  let img ← fill_rect img 5 13 2 3 (.name "goblin_dark")
  let img ← fill_rect img 9 13 2 3 (.name "goblin_dark")
  let img ← fill_rect img 3 7 2 4 (.name "goblin_green")
  let img ← fill_rect img 11 7 2 4 (.name "goblin_green")
  pure img

/-- Source lines 397-416: `creature_wolf`. -/
def creature_wolf : Unit → Option Canvas := fun _ => do
  let img := new_image
  let img ← fill_rect img 2 7 12 5 (.name "wolf_gray")
  let img ← fill_rect img 11 4 5 5 (.name "wolf_gray")
  let img ← fill_rect img 14 6 2 2 (.name "wolf_dark")
  let img ← draw_pixel img 12 3 (.name "wolf_dark")
  let img ← draw_pixel img 14 3 (.name "wolf_dark")
  let img ← draw_pixel img 13 5 (.name "black")
  let img ← fill_rect img 3 12 2 4 (.name "wolf_dark")
  let img ← fill_rect img 7 12 2 4 (.name "wolf_dark")
  let img ← fill_rect img 11 10 2 4 (.name "wolf_dark")
  let img ← fill_rect img 0 6 3 2 (.name "wolf_gray")
  pure img

/-- Source lines 418-435: `creature_bear`. -/
def creature_bear : Unit → Option Canvas := fun _ => do
  let img := new_image
  let img ← fill_rect img 2 5 12 8 (.name "bear_brown")
  let img ← fill_rect img 10 2 6 6 (.name "bear_brown")
  let img ← fill_rect img 13 4 3 3 (.name "bear_dark")
  let img ← draw_pixel img 15 5 (.name "black")
  let img ← fill_rect img 10 1 2 2 (.name "bear_dark")
  let img ← fill_rect img 14 1 2 2 (.name "bear_dark")
  let img ← draw_pixel img 11 3 (.name "black")
  let img ← fill_rect img 3 13 3 3 (.name "bear_dark")
  let img ← fill_rect img 8 13 3 3 (.name "bear_dark")
  pure img

/-- Source lines 437-454: `creature_giant`. -/
def creature_giant : Unit → Option Canvas := fun _ => do
  let img := new_image
  let img ← fill_rect img 3 4 10 10 (.name "giant_purple")
  let img ← fill_rect img 5 0 6 5 (.name "giant_purple")
  let img ← draw_pixel img 6 2 (.rgb (255, 255, 128))
  let img ← draw_pixel img 9 2 (.rgb (255, 255, 128))
  let img ← fill_rect img 7 3 2 1 (.name "black")
  let img ← fill_rect img 4 14 3 2 (.rgb (108, 78, 118))
  let img ← fill_rect img 9 14 3 2 (.rgb (108, 78, 118))
  let img ← fill_rect img 1 5 2 6 (.name "giant_purple")
  let img ← fill_rect img 13 5 2 6 (.name "giant_purple")
  pure img

/-- Source lines 456-476: `creature_undead`. -/
def creature_undead : Unit → Option Canvas := fun _ => do
  let img := new_image
  let img ← fill_rect img 5 6 6 8 (.name "undead_dark")
  let img ← fill_rect img 5 1 6 6 (.name "undead_pale")
  let img ← fill_rect img 6 2 2 2 (.name "black")
  let img ← fill_rect img 9 2 2 2 (.name "black")
  let img ← draw_pixel img 6 2 (.rgb (158, 255, 158))
  let img ← draw_pixel img 9 2 (.rgb (158, 255, 158))
  let img ← fill_rect img 7 5 2 1 (.name "black")
  let img ← fill_rect img 3 7 2 5 (.name "undead_pale")
  let img ← fill_rect img 11 7 2 5 (.name "undead_pale")
  let img ← fill_rect img 5 14 2 2 (.name "undead_dark")
  let img ← fill_rect img 9 14 2 2 (.name "undead_dark")
  pure img

/-- Source lines 480-490: `item_food`. -/
def item_food : Unit → Option Canvas := fun _ => do
  let img := new_image
  let img ← fill_rect img 3 6 10 6 (.name "bread")
  let img ← fill_rect img 4 5 8 2 (.name "bread")
  let img ← fill_rect img 5 6 6 2 (.rgb (238, 198, 118))
  let img ← draw_pixel img 6 7 (.name "wood_med")
  let img ← draw_pixel img 9 7 (.name "wood_med")
  pure img

/-- Source lines 492-502: `item_drink`. -/
def item_drink : Unit → Option Canvas := fun _ => do
  let img := new_image
  let img ← fill_rect img 4 4 8 10 (.name "wood_med")
  let img ← fill_rect img 5 5 6 8 (.name "ale")
  let img ← fill_rect img 12 6 2 6 (.name "wood_dark")
  let img ← fill_rect img 13 7 1 4 (.name "wood_dark")
  let img ← fill_rect img 5 4 6 2 (.name "white")
  pure img

/-- Source lines 504-514: `item_raw_meat`. -/
def item_raw_meat : Unit → Option Canvas := fun _ => do
  let img := new_image
  let img ← fill_rect img 3 5 10 8 (.name "meat_red")
  let img ← fill_rect img 4 4 8 2 (.name "meat_red")
  let img ← fill_rect img 5 7 3 2 (.name "white")
  let img ← fill_rect img 9 9 2 2 (.name "white")
  let img ← fill_rect img 3 11 10 2 (.name "meat_dark")
  pure img

/-- Source lines 516-525: `item_plant`. -/
def item_plant : Unit → Option Canvas := fun _ => do
  let img := new_image
  let img ← fill_rect img 7 6 2 10 (.name "shrub")
  let img ← fill_rect img 4 4 3 4 (.name "plant_green")
  let img ← fill_rect img 9 3 4 3 (.name "plant_green")
  let img ← fill_rect img 5 8 3 3 (.name "plant_green")
  let img ← fill_rect img 10 7 3 3 (.name "plant_green")
  pure img

/-- Source lines 527-537: `item_bed`. -/
def item_bed : Unit → Option Canvas := fun _ => do
  let img := new_image
  let img ← fill_rect img 1 10 14 4 (.name "wood_dark")
  let img ← fill_rect img 2 6 12 5 (.name "fabric_red")
  let img ← fill_rect img 2 4 4 3 (.name "white")
  let img ← fill_rect img 2 8 12 1 (.rgb (148, 48, 48))
  pure img

/-- Source lines 539-547: `item_table`. -/
def item_table : Unit → Option Canvas := fun _ => do
  let img := new_image
  let img ← fill_rect img 1 5 14 3 (.name "wood_med")
  let img ← fill_rect img 0 5 16 1 (.name "wood_light")
  let img ← fill_rect img 2 8 2 8 (.name "wood_dark")
  let img ← fill_rect img 12 8 2 8 (.name "wood_dark")
  pure img

/-- Source lines 549-559: `item_chair`. -/
def item_chair : Unit → Option Canvas := fun _ => do
  let img := new_image
  let img ← fill_rect img 5 2 6 7 (.name "wood_med")
  let img ← fill_rect img 6 3 4 5 (.name "wood_light")
  let img ← fill_rect img 4 9 8 2 (.name "wood_med")
  let img ← fill_rect img 4 11 2 5 (.name "wood_dark")
  let img ← fill_rect img 10 11 2 5 (.name "wood_dark")
  pure img

/-- Source lines 561-573: `item_door`. -/
def item_door : Unit → Option Canvas := fun _ => do
  let img := new_image
  let img ← fill_rect img 2 0 12 16 (.name "wood_dark")
  let img ← fill_rect img 3 1 10 6 (.name "wood_med")
  let img ← fill_rect img 3 9 10 6 (.name "wood_med")
  let img ← fill_rect img 10 8 2 2 (.name "metal_light")
  let img ← fill_rect img 3 3 1 2 (.name "metal_dark")
  let img ← fill_rect img 3 11 1 2 (.name "metal_dark")
  pure img

/-- Source lines 575-587: `item_barrel`. -/
def item_barrel : Unit → Option Canvas := fun _ => do
  let img := new_image
  let img ← fill_rect img 3 2 10 12 (.name "wood_med")
  let img ← fill_rect img 4 1 8 2 (.name "wood_med")
  let img ← fill_rect img 4 13 8 2 (.name "wood_med")
  let img ← fill_rect img 3 4 10 1 (.name "metal_dark")
  let img ← fill_rect img 3 11 10 1 (.name "metal_dark")
  let img ← [(5 : Int), 8, 11].foldlM
    (fun im x => fill_rect im x 2 1 12 (.name "wood_dark")) img
  pure img

/-- Source lines 589-596: `item_bin`. -/
def item_bin : Unit → Option Canvas := fun _ => do
  let img := new_image
  let img ← fill_rect img 2 5 12 9 (.name "wood_med")
  let img ← fill_rect img 3 6 10 7 (.name "wood_dark")
  let img ← fill_rect img 1 4 14 2 (.name "wood_light")
  pure img

/-- Source lines 598-609: `item_pickaxe`. -/
def item_pickaxe : Unit → Option Canvas := fun _ => do
  let img := new_image
  let img ← fill_rect img 2 3 2 12 (.name "wood_dark")
  let img ← fill_rect img 4 2 10 3 (.name "metal_light")
  let img ← fill_rect img 12 1 3 2 (.name "metal_light")
  let img ← fill_rect img 12 4 3 2 (.name "metal_light")
  let img ← draw_pixel img 14 1 (.name "white")
  let img ← draw_pixel img 14 5 (.name "white")
  pure img

/-- Source lines 611-622: `item_axe`. -/
def item_axe : Unit → Option Canvas := fun _ => do
  let img := new_image
  let img ← fill_rect img 3 3 2 12 (.name "wood_dark")
  let img ← fill_rect img 5 2 6 6 (.name "metal_light")
  let img ← fill_rect img 9 3 4 4 (.name "metal_light")
  let img ← fill_rect img 11 3 2 4 (.name "metal_dark")
  let img ← draw_pixel img 12 4 (.name "white")
  let img ← draw_pixel img 12 5 (.name "white")
  pure img

/-- Source lines 624-634: `item_log`. -/
def item_log : Unit → Option Canvas := fun _ => do
  let img := new_image
  let img ← fill_rect img 1 5 14 7 (.name "wood_med")
  let img ← fill_rect img 1 5 14 2 (.name "bark")
  let img ← fill_rect img 1 10 14 2 (.name "bark")
  let img ← fill_rect img 13 6 2 5 (.name "wood_light")
  let img ← draw_pixel img 14 8 (.name "wood_dark")
  pure img

/-- Source lines 636-646: `item_stone`. -/
def item_stone : Unit → Option Canvas := fun _ => do
  let img := new_image
  let img ← fill_rect img 3 5 10 8 (.name "stone_med")
  let img ← fill_rect img 4 4 8 2 (.name "stone_med")
  let img ← fill_rect img 5 12 6 2 (.name "stone_med")
  let img ← fill_rect img 5 6 4 3 (.name "stone_light")
  let img ← fill_rect img 9 9 3 3 (.name "stone_dark")
  pure img

/-- Source lines 648-659: `item_ore`. -/
def item_ore : Unit → Option Canvas := fun _ => do
  let img := new_image
  let img ← fill_rect img 3 5 10 8 (.name "stone_dark")
  let img ← fill_rect img 4 4 8 2 (.name "stone_dark")
  let img ← fill_rect img 5 6 3 3 (.name "gold")
  let img ← fill_rect img 9 8 3 3 (.name "gold")
  let img ← draw_pixel img 6 7 (.name "white")
  let img ← draw_pixel img 10 9 (.name "white")
  pure img

/-- Source lines 663-683: `ui_selection`.  The drawer resolves
`COLORS['select_yellow']` itself (a direct dict access that would raise
on a missing key) and passes the literal triple to `draw_pixel`. -/
def ui_selection : Unit → Option Canvas := fun _ => do
  let img := new_image
  let c ← COLORS.lookup "select_yellow"
  let img ← (pyrange 0 4).foldlM (fun im i => do
    let im ← draw_pixel im i 0 (.rgb c)
    draw_pixel im 0 i (.rgb c)) img
  let img ← (pyrange 0 4).foldlM (fun im i => do
    let im ← draw_pixel im (15 - i) 0 (.rgb c)
    draw_pixel im 15 i (.rgb c)) img
  let img ← (pyrange 0 4).foldlM (fun im i => do
    let im ← draw_pixel im i 15 (.rgb c)
    draw_pixel im 0 (15 - i) (.rgb c)) img
  let img ← (pyrange 0 4).foldlM (fun im i => do
    let im ← draw_pixel im (15 - i) 15 (.rgb c)
    draw_pixel im 15 (15 - i) (.rgb c)) img
  pure img

/-- Modelled from the spec: PIL's `Image.resize((d, d), Image.NEAREST)`
used by `create_imageset` (the PIL library itself is not part of this
repository).  For the NEAREST filter, destination pixel `pos` samples
the source pixel under the destination pixel's center, i.e. source
index `floor((pos + 0.5) * srcSize / dstSize)`, computed here in exact
integer arithmetic as `((2*pos + 1) * srcSize) / (2 * dstSize)`. -/
def srcIndex (srcSize dstSize pos : Nat) : Nat :=
  ((2 * pos + 1) * srcSize) / (2 * dstSize)

/-- Modelled from the spec: nearest-neighbor resize of a square
`srcSize` canvas to a square `dstSize` canvas (no interpolation). -/
def resizeNearest (img : Canvas) (srcSize dstSize : Nat) : Canvas :=
  (List.range dstSize).map (fun dy =>
    (List.range dstSize).map (fun dx =>
      getPixel img (srcIndex srcSize dstSize dx) (srcIndex srcSize dstSize dy)))

/-- One entry of the `images` array of an imageset's `Contents.json`. -/
structure ContentsImage where
  filename : String
  idiom : String
  scale : String
deriving DecidableEq

/-- The on-disk artifact produced by one `create_imageset` call: the
sprite folder path, the image files written (filename paired with the
raster written to it, in the order written), and the `images` list of
the descriptor `Contents.json`. -/
structure Imageset where
  folder : String
  images : List (String × Canvas)
  contents : List ContentsImage

/-- Source line 23: `suffix = "" if scale == 1 else f"@{scale}x"`. -/
def scaleSuffix (scale : Nat) : String :=
  if scale = 1 then "" else "@" ++ toString scale ++ "x"

/-- Source lines 14-36: `create_imageset(name, category, image)`,
modelled as the pure description of everything it writes.  For each
scale in `[1, 2, 3]` it saves the image resized (nearest-neighbor) to
`TILE_SIZE * scale`, under `name + suffix + ".png"`; then it writes a
`Contents.json` whose `images` array lists the three filenames with
idiom `"universal"` and scales `"1x"`, `"2x"`, `"3x"`. -/
def create_imageset (name category : String) (image : Canvas) : Imageset :=
  { folder := ASSETS_PATH ++ "/" ++ category ++ "/" ++ name ++ ".imageset",
    images := ([1, 2, 3] : List Nat).map (fun scale =>
      (name ++ scaleSuffix scale ++ ".png",
        resizeNearest image TILE_SIZE (TILE_SIZE * scale))),
    contents := [
      ⟨name ++ ".png", "universal", "1x"⟩,
      ⟨name ++ "@2x.png", "universal", "2x"⟩,
      ⟨name ++ "@3x.png", "universal", "3x"⟩] }

/-- Source lines 695-713: the `terrain_sprites` dict of `main`, in
declaration order. -/
def terrain_sprites : List (String × (Unit → Option Canvas)) := [
  ("terrain_empty_air", terrain_empty_air),
  ("terrain_grass", terrain_grass),
  ("terrain_dirt", terrain_dirt),
  ("terrain_stone", terrain_stone),
  ("terrain_water", terrain_water),
  ("terrain_tree", terrain_tree),
  ("terrain_shrub", terrain_shrub),
  ("terrain_wall", terrain_wall),
  ("terrain_ore", terrain_ore),
  ("terrain_wooden_floor", terrain_wooden_floor),
  ("terrain_stone_floor", terrain_stone_floor),
  ("terrain_constructed_wall", terrain_constructed_wall),
  ("terrain_stairs_up", terrain_stairs_up),
  ("terrain_stairs_down", terrain_stairs_down),
  ("terrain_stairs_updown", terrain_stairs_updown),
  ("terrain_ramp_up", terrain_ramp_up),
  ("terrain_ramp_down", terrain_ramp_down)]

/-- Source lines 720-727: the `creature_sprites` dict of `main`. -/
def creature_sprites : List (String × (Unit → Option Canvas)) := [
  ("creature_dwarf", creature_dwarf),
  ("creature_goblin", creature_goblin),
  ("creature_wolf", creature_wolf),
  ("creature_bear", creature_bear),
  ("creature_giant", creature_giant),
  ("creature_undead", creature_undead)]

/-- Source lines 734-750: the `item_sprites` dict of `main`. -/
def item_sprites : List (String × (Unit → Option Canvas)) := [
  ("item_food", item_food),
  ("item_drink", item_drink),
  ("item_raw_meat", item_raw_meat),
  ("item_plant", item_plant),
  ("item_bed", item_bed),
  ("item_table", item_table),
  ("item_chair", item_chair),
  ("item_door", item_door),
  ("item_barrel", item_barrel),
  ("item_bin", item_bin),
  ("item_pickaxe", item_pickaxe),
  ("item_axe", item_axe),
  ("item_log", item_log),
  ("item_stone", item_stone),
  ("item_ore", item_ore)]

/-- All 39 drawers in the order `main` processes them: the three
catalogs in declared order, then the single UI sprite. -/
def allDrawers : List (String × (Unit → Option Canvas)) :=
  terrain_sprites ++ creature_sprites ++ item_sprites ++ [("ui_selection", ui_selection)]

/-- One observable filesystem/drawing step of `main`. -/
inductive Event where
  | scaffold (category : String)
  | draw (name : String)
  | emit (name category : String)
deriving DecidableEq

/-- Source lines 687-760: the sequence of steps `main` performs, in
order.  It first scaffolds the four category folders (`os.makedirs`
plus `create_folder_contents` for each), then for each catalog dict in
declared order draws each sprite (`func()`) and emits it
(`create_imageset`), and finally draws and emits the UI sprite. -/
def main_trace : List Event :=
  (["Terrain", "Creatures", "Items", "UI"].map Event.scaffold)
  ++ (terrain_sprites.map Prod.fst).flatMap (fun n => [Event.draw n, Event.emit n "Terrain"])
  ++ (creature_sprites.map Prod.fst).flatMap (fun n => [Event.draw n, Event.emit n "Creatures"])
  ++ (item_sprites.map Prod.fst).flatMap (fun n => [Event.draw n, Event.emit n "Items"])
  ++ [Event.draw "ui_selection", Event.emit "ui_selection" "UI"]

/-- Whether an event is a category scaffolding step. -/
def isScaffold : Event → Bool
  | Event.scaffold _ => true
  | _ => false

/-- The category scaffolded by an event, if any. -/
def scaffoldCat : Event → Option String
  | Event.scaffold c => some c
  | _ => none

/-- The category an event emits into, if any. -/
def emitCat : Event → Option String
  | Event.emit _ c => some c
  | _ => none

/-- The sprite name an event emits, if any. -/
def emitSprite : Event → Option String
  | Event.emit n _ => some n
  | _ => none

/-- The sprite name an event draws, if any. -/
def drawnSprite : Event → Option String
  | Event.draw n => some n
  | _ => none

/-- Scan a trace keeping the list of categories scaffolded so far;
`true` iff every emit targets an already-scaffolded category. -/
def scaffoldedBeforeEmit : List String → List Event → Bool
  | _, [] => true
  | seen, Event.scaffold c :: rest => scaffoldedBeforeEmit (c :: seen) rest
  | seen, Event.draw _ :: rest => scaffoldedBeforeEmit seen rest
  | seen, Event.emit _ c :: rest => seen.contains c && scaffoldedBeforeEmit seen rest

/-- Number of pixels of a canvas that are still the transparent black
initial fill `(0, 0, 0, 0)`. -/
def countTransparent (img : Canvas) : Nat :=
  img.foldl (fun n row => n + row.countP (fun px => px == ((0, 0, 0, 0) : Pixel))) 0

/-- Number of pixels of a canvas that are fully opaque (alpha 255). -/
def countSolid (img : Canvas) : Nat :=
  img.foldl (fun n row => n + row.countP (fun px => px.2.2.2 == 255)) 0

/-- Bool check that a pixel is untouched transparent black or fully
opaque. -/
def pixelOK (px : Pixel) : Bool :=
  px == ((0, 0, 0, 0) : Pixel) || px.2.2.2 == 255

/-- Bool check that a drawer run succeeded and that every pixel of its
canvas is untouched transparent black or fully opaque. -/
def canvasOK : Option Canvas → Bool
  | none => false
  | some img => img.all (fun row => row.all pixelOK)

/-- Well-formedness of a canvas: 16 rows of 16 pixels, as PIL
guarantees for every image produced by `new_image`. -/
def wf (img : Canvas) : Prop :=
  img.length = 16 ∧ ∀ y < 16, (img.getD y []).length = 16

/-! ### Helper lemmas -/

theorem getD_set_eq {α} (l : List α) (i : Nat) (a d : α) (h : i < l.length) :
    (l.set i a).getD i d = a := by
  simp [List.getD_eq_getElem?_getD, List.getElem?_set_self h]

theorem getD_set_ne {α} (l : List α) (i j : Nat) (a d : α) (h : i ≠ j) :
    (l.set i a).getD j d = l.getD j d := by
  simp [List.getD_eq_getElem?_getD, List.getElem?_set_ne h]

theorem wf_new_image : wf new_image := by
  constructor
  · rfl
  · intro y hy
    interval_cases y <;> rfl

theorem wf_putpixel (img : Canvas) (x y : Nat) (p : Pixel) (h : wf img) :
    wf (putpixel img x y p) := by
  obtain ⟨hl, hr⟩ := h
  refine ⟨by simpa [putpixel] using hl, fun i hi => ?_⟩
  by_cases hy : y = i
  · subst hy
    by_cases hylen : y < img.length
    · rw [putpixel, getD_set_eq _ _ _ _ hylen, List.length_set]
      exact hr y hi
    · rw [putpixel, List.set_eq_of_length_le (Nat.le_of_not_lt hylen)]
      exact hr y hi
  · rw [putpixel, getD_set_ne _ _ _ _ _ hy]
    exact hr i hi

theorem getPixel_putpixel_eq (img : Canvas) (x y : Nat) (p : Pixel)
    (h : wf img) (hx : x < 16) (hy : y < 16) :
    getPixel (putpixel img x y p) x y = p := by
  unfold getPixel putpixel
  rw [getD_set_eq _ _ _ _ (by rw [h.1]; exact hy)]
  rw [getD_set_eq _ _ _ _ (by rw [h.2 y hy]; exact hx)]

theorem getPixel_putpixel_ne (img : Canvas) (x y qx qy : Nat) (p : Pixel)
    (h : qx ≠ x ∨ qy ≠ y) :
    getPixel (putpixel img x y p) qx qy = getPixel img qx qy := by
  unfold getPixel putpixel
  rcases eq_or_ne y qy with rfl | hne
  · have hx : x ≠ qx := by
      intro hxx
      subst hxx
      rcases h with h | h <;> exact h rfl
    by_cases hylen : y < img.length
    · rw [getD_set_eq _ _ _ _ hylen, getD_set_ne _ _ _ _ _ hx]
    · rw [List.set_eq_of_length_le (Nat.le_of_not_lt hylen)]
  · rw [getD_set_ne _ _ _ _ _ hne]

theorem tileInt : ((TILE_SIZE : Nat) : Int) = 16 := rfl

theorem draw_pixel_out (img : Canvas) (x y : Int) (c : PyColor)
    (h : ¬(0 ≤ x ∧ x < 16 ∧ 0 ≤ y ∧ y < 16)) :
    draw_pixel img x y c = some img := by
  unfold draw_pixel
  rw [tileInt, if_neg h]

theorem draw_pixel_in (img : Canvas) (x y : Int) (c : PyColor) (rgbv : RGB)
    (hres : resolveColor c = some rgbv)
    (h : 0 ≤ x ∧ x < 16 ∧ 0 ≤ y ∧ y < 16) :
    draw_pixel img x y c =
      some (putpixel img x.toNat y.toNat (rgbv.1, rgbv.2.1, rgbv.2.2, 255)) := by
  unfold draw_pixel
  rw [tileInt, if_pos h, hres]

theorem draw_pixel_fail (img : Canvas) (x y : Int) (c : PyColor)
    (hres : resolveColor c = none)
    (h : 0 ≤ x ∧ x < 16 ∧ 0 ≤ y ∧ y < 16) :
    draw_pixel img x y c = none := by
  unfold draw_pixel
  rw [tileInt, if_pos h, hres]

theorem foldl_draw_row (c : PyColor) (rgbv : RGB)
    (hres : resolveColor c = some rgbv) (py : Int) :
    ∀ (n : Nat) (a : Int) (img : Canvas), wf img →
    ∃ img', (intRange a n).foldlM (fun im px => draw_pixel im px py c) img = some img' ∧
      wf img' ∧
      ∀ qx qy : Nat, qx < 16 → qy < 16 →
        getPixel img' qx qy =
          if a ≤ (qx : Int) ∧ (qx : Int) < a + n ∧ (qy : Int) = py
          then (rgbv.1, rgbv.2.1, rgbv.2.2, 255) else getPixel img qx qy := by
  intro n
  induction n with
  | zero =>
    intro a img hwf
    refine ⟨img, rfl, hwf, fun qx qy _ _ => ?_⟩
    rw [if_neg (by omega)]
  | succ n ih =>
    intro a img hwf
    by_cases hb : 0 ≤ a ∧ a < 16 ∧ 0 ≤ py ∧ py < 16
    · have hdp := draw_pixel_in img a py c rgbv hres hb
      have hwf1 : wf (putpixel img a.toNat py.toNat (rgbv.1, rgbv.2.1, rgbv.2.2, 255)) :=
        wf_putpixel _ _ _ _ hwf
      obtain ⟨img', hfold, hwf', hpix⟩ := ih (a + 1)
        (putpixel img a.toNat py.toNat (rgbv.1, rgbv.2.1, rgbv.2.2, 255)) hwf1
      refine ⟨img', ?_, hwf', ?_⟩
      · rw [intRange, List.foldlM_cons, hdp]
        simpa using hfold
      · intro qx qy hqx hqy
        rw [hpix qx qy hqx hqy]
        by_cases h1 : (a + 1 ≤ (qx : Int) ∧ (qx : Int) < a + 1 + n ∧ (qy : Int) = py)
        · rw [if_pos h1, if_pos (by omega)]
        · rw [if_neg h1]
          by_cases h2 : ((qx : Int) = a ∧ (qy : Int) = py)
          · have hqa : qx = a.toNat := by omega
            have hqp : qy = py.toNat := by omega
            rw [hqa, hqp, getPixel_putpixel_eq _ _ _ _ hwf (by omega) (by omega)]
            rw [if_pos (by omega)]
          · have hne : qx ≠ a.toNat ∨ qy ≠ py.toNat := by omega
            rw [getPixel_putpixel_ne _ _ _ _ _ _ hne]
            rw [if_neg (by omega)]
    · have hdp := draw_pixel_out img a py c hb
      obtain ⟨img', hfold, hwf', hpix⟩ := ih (a + 1) img hwf
      refine ⟨img', ?_, hwf', ?_⟩
      · rw [intRange, List.foldlM_cons, hdp]
        simpa using hfold
      · intro qx qy hqx hqy
        rw [hpix qx qy hqx hqy]
        by_cases h1 : (a + 1 ≤ (qx : Int) ∧ (qx : Int) < a + 1 + n ∧ (qy : Int) = py)
        · rw [if_pos h1, if_pos (by omega)]
        · rw [if_neg h1, if_neg (by omega)]

theorem pyrange_eq (a b : Int) : pyrange a (a + b) = intRange a b.toNat := by
  unfold pyrange
  rw [add_sub_cancel_left]

theorem foldl_draw_rect (c : PyColor) (rgbv : RGB)
    (hres : resolveColor c = some rgbv) (x w : Int) :
    ∀ (n : Nat) (b : Int) (img : Canvas), wf img →
    ∃ img', (intRange b n).foldlM
        (fun im py => (pyrange x (x + w)).foldlM
          (fun im2 px => draw_pixel im2 px py c) im) img = some img' ∧
      wf img' ∧
      ∀ qx qy : Nat, qx < 16 → qy < 16 →
        getPixel img' qx qy =
          if x ≤ (qx : Int) ∧ (qx : Int) < x + w ∧ b ≤ (qy : Int) ∧ (qy : Int) < b + n
          then (rgbv.1, rgbv.2.1, rgbv.2.2, 255) else getPixel img qx qy := by
  intro n
  induction n with
  | zero =>
    intro b img hwf
    refine ⟨img, rfl, hwf, fun qx qy _ _ => ?_⟩
    rw [if_neg (by omega)]
  | succ n ih =>
    intro b img hwf
    obtain ⟨img1, hrow, hwf1, hpix1⟩ := foldl_draw_row c rgbv hres b w.toNat x img hwf
    obtain ⟨img', hfold, hwf', hpix⟩ := ih (b + 1) img1 hwf1
    refine ⟨img', ?_, hwf', ?_⟩
    · rw [← pyrange_eq x w] at hrow
      rw [intRange, List.foldlM_cons, hrow]
      simpa using hfold
    · intro qx qy hqx hqy
      rw [hpix qx qy hqx hqy]
      by_cases h1 : (x ≤ (qx : Int) ∧ (qx : Int) < x + w ∧ b + 1 ≤ (qy : Int) ∧ (qy : Int) < b + 1 + n)
      · rw [if_pos h1, if_pos (by omega)]
      · rw [if_neg h1, hpix1 qx qy hqx hqy]
        by_cases h2 : (x ≤ (qx : Int) ∧ (qx : Int) < x + (w.toNat : Int) ∧ (qy : Int) = b)
        · rw [if_pos h2, if_pos (by omega)]
        · rw [if_neg h2, if_neg (by omega)]

theorem fill_rect_spec (img : Canvas) (x y w h : Int) (c : PyColor) (rgbv : RGB)
    (hwf : wf img) (hres : resolveColor c = some rgbv) :
    ∃ img', fill_rect img x y w h c = some img' ∧ wf img' ∧
      ∀ qx qy : Nat, qx < 16 → qy < 16 →
        getPixel img' qx qy =
          if x ≤ (qx : Int) ∧ (qx : Int) < x + w ∧ y ≤ (qy : Int) ∧ (qy : Int) < y + h
          then (rgbv.1, rgbv.2.1, rgbv.2.2, 255) else getPixel img qx qy := by
  obtain ⟨img', hfold, hwf', hpix⟩ := foldl_draw_rect c rgbv hres x w h.toNat y img hwf
  refine ⟨img', ?_, hwf', ?_⟩
  · rw [fill_rect, pyrange_eq y h]
    exact hfold
  · intro qx qy hqx hqy
    rw [hpix qx qy hqx hqy]
    by_cases h1 : (x ≤ (qx : Int) ∧ (qx : Int) < x + w ∧ y ≤ (qy : Int) ∧ (qy : Int) < y + (h.toNat : Int))
    · rw [if_pos h1, if_pos (by omega)]
    · rw [if_neg h1, if_neg (by omega)]

theorem getD_map_range {α} (n k : Nat) (f : Nat → α) (d : α) (h : k < n) :
    ((List.range n).map f).getD k d = f k := by
  simp [List.getD_eq_getElem?_getD, List.getElem?_map, List.getElem?_range h]

theorem getPixel_resizeNearest (img : Canvas) (srcSize dstSize dx dy : Nat)
    (hx : dx < dstSize) (hy : dy < dstSize) :
    getPixel (resizeNearest img srcSize dstSize) dx dy =
      getPixel img (srcIndex srcSize dstSize dx) (srcIndex srcSize dstSize dy) := by
  unfold resizeNearest
  show ((((List.range dstSize).map _).getD dy []).getD dx _) = _
  rw [getD_map_range _ _ _ _ hy, getD_map_range _ _ _ _ hx]

theorem srcIndex_mul (s x i : Nat) (hs : 0 < s) (hi : i < s) :
    srcIndex 16 (16 * s) (s * x + i) = x := by
  unfold srcIndex
  have h1 : (2 * (s * x + i) + 1) * 16 = (32 * i + 16) + (2 * (16 * s)) * x := by ring
  rw [h1, Nat.add_mul_div_left _ _ (by omega), Nat.div_eq_of_lt (by omega), Nat.zero_add]

theorem foldlM_flatMap {α β γ : Type} (g : β → List α) (f : γ → α → Option γ)
    (xs : List β) (init : γ) :
    (xs.flatMap g).foldlM f init = xs.foldlM (fun s b => (g b).foldlM f s) init := by
  induction xs generalizing init with
  | nil => rfl
  | cons b xs ih =>
    rw [List.flatMap_cons, List.foldlM_append, List.foldlM_cons]
    exact bind_congr fun s => ih s

/-- The in-order list of coordinates `fill_rect` writes: every `(px, py)`
of the rectangle, rows outermost, exactly the order of the two Python
loops. -/
theorem fill_rect_eq_foldlM_set_pixel (img : Canvas) (x y w h : Int) (c : PyColor) :
    fill_rect img x y w h c =
      ((pyrange y (y + h)).flatMap
        (fun py => (pyrange x (x + w)).map (fun px => (px, py)))).foldlM
        (fun im q => draw_pixel im q.1 q.2 c) img := by
  rw [fill_rect, foldlM_flatMap]
  simp only [List.foldlM_map]

/-- Every one of the 39 drawers runs to completion (no palette lookup
failure) and every pixel of its canvas is either untouched transparent
black or fully opaque.  Established by exhaustive evaluation. -/
theorem allDrawers_canvasOK : ∀ p ∈ allDrawers, canvasOK (p.2 ()) = true := by decide

/-! ### Claims -/

/-- Claim C1, counterexample: in the `terrain_wall` canvas (and hence
in its 1x export), pixel (0,0) is NOT the palette's "wall_dark" triple
(68,68,68) with alpha 255 — the base `wall_dark` fill is overpainted at
(0,0) by the subsequent `stone_dark` texture rectangle, leaving
(88,88,88,255). -/
theorem c1_counterexample :
    COLORS.lookup "wall_dark" = some (68, 68, 68) ∧
    (terrain_wall ()).map
      (fun img => getPixel (resizeNearest img TILE_SIZE (TILE_SIZE * 1)) 0 0) =
      some (88, 88, 88, 255) ∧
    ((88, 88, 88, 255) : Pixel) ≠ ((68, 68, 68, 255) : Pixel) := by decide

/-- Claim C1, amended: for the `terrain_wall` drawer's output canvas
(the 1x export), the pixel at coordinate (0,0) equals the RGB triple
the palette maps "stone_dark" to — (88,88,88) — with alpha 255. -/
theorem c1_amended_wall_corner_pixel :
    COLORS.lookup "stone_dark" = some (88, 88, 88) ∧
    (terrain_wall ()).map
      (fun img => getPixel (resizeNearest img TILE_SIZE (TILE_SIZE * 1)) 0 0) =
      some (88, 88, 88, 255) := by decide

/-- Claim C2, counterexample: the empty-air terrain drawer does NOT
leave a majority of its 256 pixels transparent — `terrain_empty_air`
fills the whole canvas with the opaque "empty" color, so 0 pixels
remain the initial transparent fill and all 256 are opaque. -/
theorem c2_counterexample :
    (terrain_empty_air ()).map countTransparent = some 0 ∧
    (terrain_empty_air ()).map countSolid = some 256 := by decide

/-- Claim C2, amended: the UI selection drawer returns a
mostly-transparent canvas — 228 of its 256 pixels remain the initial
fully transparent fill and only 28 are opaque — while the empty-air
terrain drawer instead fills all 256 pixels with opaque color (0
transparent). -/
theorem c2_amended_transparency_counts :
    (ui_selection ()).map countTransparent = some 228 ∧
    (ui_selection ()).map countSolid = some 28 ∧
    128 < 228 ∧
    (terrain_empty_air ()).map countTransparent = some 0 ∧
    (terrain_empty_air ()).map countSolid = some 256 := by decide

/-- Claim C4, counterexample: `draw_pixel` at the in-bounds coordinate
(3,4) with the undefined symbolic color name "no_such_color" raises a
lookup error (returns `none`) instead of overwriting the pixel. -/
theorem c4_counterexample :
    (0 ≤ (3 : Int) ∧ (3 : Int) < 16 ∧ 0 ≤ (4 : Int) ∧ (4 : Int) < 16) ∧
    draw_pixel new_image 3 4 (PyColor.name "no_such_color") = none := by decide

/-- Claim C4, amended: for every well-formed canvas, every color
argument and every coordinate (x,y) with x or y outside [0,16),
`draw_pixel` leaves the canvas unchanged and does not fail or raise;
for every (x,y) inside [0,16)x[0,16), provided the color argument
resolves (a literal triple, or a symbolic name present in the palette —
an undefined name raises a lookup error instead), it overwrites exactly
that pixel with the given color at full opacity. -/
theorem c4_amended_set_pixel (img : Canvas) (x y : Int) (c : PyColor) (hwf : wf img) :
    (¬(0 ≤ x ∧ x < 16 ∧ 0 ≤ y ∧ y < 16) → draw_pixel img x y c = some img) ∧
    (∀ rgbv : RGB, resolveColor c = some rgbv →
      (0 ≤ x ∧ x < 16 ∧ 0 ≤ y ∧ y < 16) →
      ∃ img', draw_pixel img x y c = some img' ∧
        getPixel img' x.toNat y.toNat = (rgbv.1, rgbv.2.1, rgbv.2.2, 255) ∧
        ∀ qx qy : Nat, qx < 16 → qy < 16 → (qx ≠ x.toNat ∨ qy ≠ y.toNat) →
          getPixel img' qx qy = getPixel img qx qy) := by
  constructor
  · exact fun h => draw_pixel_out img x y c h
  · intro rgbv hres hb
    refine ⟨putpixel img x.toNat y.toNat (rgbv.1, rgbv.2.1, rgbv.2.2, 255),
      draw_pixel_in img x y c rgbv hres hb, ?_, ?_⟩
    · exact getPixel_putpixel_eq _ _ _ _ hwf (by omega) (by omega)
    · intro qx qy _ _ hne
      exact getPixel_putpixel_ne _ _ _ _ _ _ hne

/-- Claim C4 witness: the amended `set_pixel` contract instantiated on
a fresh canvas at (2,3) with the palette name "white". -/
theorem c4_amended_set_pixel_witness :
    ∃ img', draw_pixel new_image 2 3 (PyColor.name "white") = some img' ∧
      getPixel img' 2 3 = (255, 255, 255, 255) ∧
      ∀ qx qy : Nat, qx < 16 → qy < 16 → (qx ≠ 2 ∨ qy ≠ 3) →
        getPixel img' qx qy = getPixel new_image qx qy :=
  (c4_amended_set_pixel new_image 2 3 (PyColor.name "white") wf_new_image).2
    (255, 255, 255) (by decide) (by decide)

/-- Claim C5, counterexample: `fill_rect` over the in-bounds rectangle
[0,2)x[0,2) with the undefined symbolic color name "no_such_color"
raises a lookup error (returns `none`), so there is no post-call state
in which the rectangle holds the given color. -/
theorem c5_counterexample :
    fill_rect new_image 0 0 2 2 (PyColor.name "no_such_color") = none := by decide

/-- Claim C5, amended: for every well-formed canvas and all integers
x, y, w, h, `fill_rect` is the fold of `set_pixel` over every
coordinate of the rectangle [x,x+w) x [y,y+h) (rows outermost); and
provided the color argument resolves (a literal triple or a
palette-defined name — an undefined name raises a lookup error
instead), the call succeeds, every in-bounds pixel inside the
rectangle ends up holding the given color at full opacity, and every
pixel outside the rectangle is unchanged; rectangle coordinates
falling outside the canvas are silently dropped. -/
theorem c5_amended_fill_rect (img : Canvas) (x y w h : Int) (c : PyColor) (hwf : wf img) :
    (fill_rect img x y w h c =
      ((pyrange y (y + h)).flatMap
        (fun py => (pyrange x (x + w)).map (fun px => (px, py)))).foldlM
        (fun im q => draw_pixel im q.1 q.2 c) img) ∧
    (∀ rgbv : RGB, resolveColor c = some rgbv →
      ∃ img', fill_rect img x y w h c = some img' ∧
        ∀ qx qy : Nat, qx < 16 → qy < 16 →
          ((x ≤ (qx : Int) ∧ (qx : Int) < x + w ∧ y ≤ (qy : Int) ∧ (qy : Int) < y + h →
            getPixel img' qx qy = (rgbv.1, rgbv.2.1, rgbv.2.2, 255)) ∧
          (¬(x ≤ (qx : Int) ∧ (qx : Int) < x + w ∧ y ≤ (qy : Int) ∧ (qy : Int) < y + h) →
            getPixel img' qx qy = getPixel img qx qy))) := by
  constructor
  · exact fill_rect_eq_foldlM_set_pixel img x y w h c
  · intro rgbv hres
    obtain ⟨img', hfr, _, hpix⟩ := fill_rect_spec img x y w h c rgbv hwf hres
    refine ⟨img', hfr, fun qx qy hqx hqy => ⟨fun hin => ?_, fun hout => ?_⟩⟩
    · rw [hpix qx qy hqx hqy, if_pos hin]
    · rw [hpix qx qy hqx hqy, if_neg hout]

/-- Claim C5 witness: the amended `fill_rect` contract instantiated on
a fresh canvas for the rectangle [1,3)x[2,3) with the palette name
"gold". -/
theorem c5_amended_fill_rect_witness :
    ∃ img', fill_rect new_image 1 2 2 1 (PyColor.name "gold") = some img' ∧
      ∀ qx qy : Nat, qx < 16 → qy < 16 →
        (((1 : Int) ≤ (qx : Int) ∧ (qx : Int) < 1 + 2 ∧ (2 : Int) ≤ (qy : Int) ∧ (qy : Int) < 2 + 1 →
          getPixel img' qx qy = (218, 178, 58, 255)) ∧
        (¬((1 : Int) ≤ (qx : Int) ∧ (qx : Int) < 1 + 2 ∧ (2 : Int) ≤ (qy : Int) ∧ (qy : Int) < 2 + 1) →
          getPixel img' qx qy = getPixel new_image qx qy)) :=
  (c5_amended_fill_rect new_image 1 2 2 1 (PyColor.name "gold") wf_new_image).2
    (218, 178, 58) (by decide)

/-- Claim C3: for every source canvas, every pixel coordinate (x,y) in
[0,16)x[0,16) and every scale factor s in {2,3}, the s-times emitted
image (the file at index s-1 of the imageset's image list) has, at
every coordinate (s*x+i, s*y+j) of the s-by-s block starting at
(s*x, s*y), exactly the RGBA color the source canvas has at (x,y):
nearest-neighbor block upscaling, no interpolation. -/
theorem c3_block_upscaling (img : Canvas) (name category : String) (s x y i j : Nat)
    (hs : s = 2 ∨ s = 3) (hx : x < 16) (hy : y < 16) (hi : i < s) (hj : j < s) :
    ∃ file, ((create_imageset name category img).images)[s - 1]? = some file ∧
      getPixel file.2 (s * x + i) (s * y + j) = getPixel img x y := by
  have h16 : TILE_SIZE = 16 := rfl
  rcases hs with rfl | rfl
  · refine ⟨(name ++ scaleSuffix 2 ++ ".png",
      resizeNearest img TILE_SIZE (TILE_SIZE * 2)), rfl, ?_⟩
    show getPixel (resizeNearest img TILE_SIZE (TILE_SIZE * 2)) (2 * x + i) (2 * y + j) = _
    rw [h16]
    rw [getPixel_resizeNearest img 16 (16 * 2) _ _ (by omega) (by omega)]
    rw [srcIndex_mul 2 x i (by omega) hi, srcIndex_mul 2 y j (by omega) hj]
  · refine ⟨(name ++ scaleSuffix 3 ++ ".png",
      resizeNearest img TILE_SIZE (TILE_SIZE * 3)), rfl, ?_⟩
    show getPixel (resizeNearest img TILE_SIZE (TILE_SIZE * 3)) (3 * x + i) (3 * y + j) = _
    rw [h16]
    rw [getPixel_resizeNearest img 16 (16 * 3) _ _ (by omega) (by omega)]
    rw [srcIndex_mul 3 x i (by omega) hi, srcIndex_mul 3 y j (by omega) hj]

/-- Claim C3 witness: the 2x export of a fresh canvas, block (3,5),
offset (1,0). -/
theorem c3_block_upscaling_witness :
    ∃ file, ((create_imageset "sprite" "Terrain" new_image).images)[1]? = some file ∧
      getPixel file.2 (2 * 3 + 1) (2 * 5 + 0) = getPixel new_image 3 5 :=
  c3_block_upscaling new_image "sprite" "Terrain" 2 3 5 1 0 (Or.inl rfl)
    (by decide) (by decide) (by decide) (by decide)

/-- Claim C6: there are 39 sprite drawers and none of them ever
triggers the palette-lookup failure branch of `draw_pixel` (or the
direct palette access in `ui_selection`): every drawer's execution
completes and returns a canvas. -/
theorem c6_palette_names_defined :
    allDrawers.length = 39 ∧ ∀ p ∈ allDrawers, (p.2 ()).isSome = true := by
  constructor
  · rfl
  · intro p hp
    have h := allDrawers_canvasOK p hp
    cases hcase : p.2 () with
    | none => rw [hcase] at h; simp [canvasOK] at h
    | some img => rfl

/-- Claim C6 witness: the first drawer of the catalog runs to
completion. -/
theorem c6_palette_names_defined_witness : (terrain_empty_air ()).isSome = true :=
  c6_palette_names_defined.2 ("terrain_empty_air", terrain_empty_air)
    (by unfold allDrawers terrain_sprites
        exact List.mem_append_left _ (List.mem_append_left _
          (List.mem_append_left _ (List.mem_cons_self _ _))))

/-- Claim C7: for every sprite name, category and canvas, the emitter
writes exactly three image files, named `name.png`, `name@2x.png` and
`name@3x.png`, and its descriptor's image list enumerates exactly those
three filenames, each paired with the matching scale label
("1x", "2x", "3x") and the fixed "universal" idiom qualifier. -/
theorem c7_descriptor_matches_files (name category : String) (img : Canvas) :
    (create_imageset name category img).images.map Prod.fst =
      [name ++ ".png", name ++ "@2x.png", name ++ "@3x.png"] ∧
    (create_imageset name category img).contents.map ContentsImage.filename =
      (create_imageset name category img).images.map Prod.fst ∧
    (create_imageset name category img).contents.map ContentsImage.scale =
      ["1x", "2x", "3x"] ∧
    (create_imageset name category img).contents.map ContentsImage.idiom =
      ["universal", "universal", "universal"] ∧
    (create_imageset name category img).images.length = 3 ∧
    (create_imageset name category img).contents.length = 3 := by
  have e1 : scaleSuffix 1 ++ ".png" = ".png" := by decide
  have e2 : scaleSuffix 2 ++ ".png" = "@2x.png" := by decide
  have e3 : scaleSuffix 3 ++ ".png" = "@3x.png" := by decide
  have h1 : name ++ scaleSuffix 1 ++ ".png" = name ++ ".png" := by
    rw [String.append_assoc, e1]
  have h2 : name ++ scaleSuffix 2 ++ ".png" = name ++ "@2x.png" := by
    rw [String.append_assoc, e2]
  have h3 : name ++ scaleSuffix 3 ++ ".png" = name ++ "@3x.png" := by
    rw [String.append_assoc, e3]
  have himg : (create_imageset name category img).images.map Prod.fst =
      [name ++ ".png", name ++ "@2x.png", name ++ "@3x.png"] := by
    show [name ++ scaleSuffix 1 ++ ".png", name ++ scaleSuffix 2 ++ ".png",
      name ++ scaleSuffix 3 ++ ".png"] = _
    rw [h1, h2, h3]
  refine ⟨himg, ?_, rfl, rfl, rfl, rfl⟩
  rw [himg]
  rfl

/-- Claim C8: the driver scaffolds all four category directories
strictly before emitting any sprite, and then draws and emits the
sprites one at a time in the fixed declared order — all terrain
entries, then all creature entries, then all item entries, then the
single UI sprite — so every emit targets an already-scaffolded
category. -/
theorem c8_driver_order :
    main_trace.takeWhile isScaffold =
      [Event.scaffold "Terrain", Event.scaffold "Creatures",
        Event.scaffold "Items", Event.scaffold "UI"] ∧
    (main_trace.dropWhile isScaffold).all (fun e => !isScaffold e) = true ∧
    main_trace.filterMap drawnSprite = allDrawers.map Prod.fst ∧
    main_trace.filterMap emitSprite = allDrawers.map Prod.fst ∧
    main_trace.filterMap emitCat =
      List.replicate 17 "Terrain" ++ List.replicate 6 "Creatures" ++
        List.replicate 15 "Items" ++ ["UI"] ∧
    scaffoldedBeforeEmit [] main_trace = true := by decide

/-- Claim C9: every sprite drawer is deterministic — it takes no input
and reads no mutable state, so two invocations yield identical
results. -/
theorem c9_drawers_deterministic :
    ∀ p ∈ allDrawers, ∀ u v : Unit, p.2 u = p.2 v := by
  intro p _ u v
  cases u
  cases v
  rfl

/-- Claim C9 witness: determinism instantiated on the first drawer. -/
theorem c9_drawers_deterministic_witness :
    terrain_empty_air () = terrain_empty_air () :=
  c9_drawers_deterministic ("terrain_empty_air", terrain_empty_air)
    (by unfold allDrawers terrain_sprites
        exact List.mem_append_left _ (List.mem_append_left _
          (List.mem_append_left _ (List.mem_cons_self _ _)))) () ()

/-- Claim C10: after any of the 39 drawers returns, every pixel of its
canvas is either the initial fully transparent black (0,0,0,0) or has
alpha component exactly 255 — every write goes through `draw_pixel`,
which appends alpha 255, so no drawer produces partial opacity. -/
theorem c10_alpha_invariant :
    ∀ p ∈ allDrawers, ∀ img : Canvas, p.2 () = some img →
      ∀ row ∈ img, ∀ px ∈ row, px = ((0, 0, 0, 0) : Pixel) ∨ px.2.2.2 = 255 := by
  intro p hp img himg row hrow px hpx
  have h := allDrawers_canvasOK p hp
  rw [himg] at h
  simp only [canvasOK, List.all_eq_true] at h
  have h2 := h row hrow px hpx
  simp only [pixelOK, Bool.or_eq_true, beq_iff_eq] at h2
  exact h2

/-- Claim C10 witness: the invariant instantiated on the top-left
pixel of the UI selection sprite. -/
theorem c10_alpha_invariant_witness :
    (((ui_selection ()).getD []).getD 0 []).getD 0 (0, 0, 0, 0) = ((0, 0, 0, 0) : Pixel) ∨
    ((((ui_selection ()).getD []).getD 0 []).getD 0 (0, 0, 0, 0)).2.2.2 = 255 :=
  c10_alpha_invariant ("ui_selection", ui_selection)
    (by unfold allDrawers
        exact List.mem_append_right _ (List.mem_cons_self _ _))
    ((ui_selection ()).getD []) (by decide)
    (((ui_selection ()).getD []).getD 0 []) (by decide)
    ((((ui_selection ()).getD []).getD 0 []).getD 0 (0, 0, 0, 0)) (by decide)

end Outpost
